import Mathlib

set_option maxHeartbeats 1000000

namespace Ipopt

/-- Status codes returned by the linear-solver driver, following the four
outcomes named in the spec: success, matrix singular, incorrect
negative-eigenvalue count, and fatal solver error. -/
inductive ESymSolverStatus
  | SUCCESS
  | SINGULAR
  | WRONG_INERTIA
  | FATAL_ERROR
  deriving DecidableEq

/-- Right-hand-side and solution vectors, indexed by row. -/
abbrev RVec := Nat → Rat

/-- Modelled from the spec: a DistributedSymmetricMatrix as the driver sees it
after assembly: a version tag, the dimension, and the triplet entries
(row, column, value).  Only the header IpParTSymLinearSolver.hpp is part of
the given source, so the matrix class is reconstructed from the spec data
model. -/
structure SymMatrixT where
  tag : Nat
  dim : Nat
  entries : List (Nat × Nat × Rat)

/-- Nonzero pattern of a matrix: the (row, col) positions of its entries. -/
def patternOf (A : SymMatrixT) : List (Nat × Nat) :=
  A.entries.map (fun e => (e.1, e.2.1))

/-- Modelled from the spec: the Solver Engine collaborator
(SparseSymLinearSolverInterface, whose body is not in the given source):
a factorize-and-solve operation on values and right-hand sides with an
eigenvalue-sign request flag, a quality ladder bounded by a most
conservative setting, and an inertia capability flag. -/
structure SparseSymLinearSolverInterface where
  max_quality : Nat
  provides_inertia : Bool
  factorizeSolve : Nat → List (Nat × Nat × Rat) → List RVec → Bool → Nat →
    ESymSolverStatus × List RVec × Nat

/-- Modelled from the spec: the Scaling Engine collaborator (TSymScalingMethod,
whose body is not in the given source): given the dimension and the
assembled triplet entries it produces per-row scale factors. -/
structure TSymScalingMethod where
  ComputeSymTScalingFactors : Nat → List (Nat × Nat × Rat) → RVec

/-- Modelled from the spec: the driver state of ParTSymLinearSolver.  Field
names follow the private members declared in IpParTSymLinearSolver.hpp;
rebuild_count is the spec's observability counter for structural
rebuilds. -/
structure ParTSymLinearSolver where
  atag_ : Option Nat
  dim_ : Nat
  have_structure_ : Bool
  initialized_ : Bool
  scaling_configured_ : Bool
  linear_scaling_on_demand_ : Bool
  use_scaling_ : Bool
  just_switched_on_scaling_ : Bool
  scaling_factors_ : RVec
  negevals_ : Option Nat
  quality_level_ : Nat
  call_solverinterface_on_all_procs_ : Bool
  rebuild_count : Nat

/-- Modelled from the spec: construction of the driver (the constructor body
is not in the given source).  scaling_configured records whether a scaling
method was given; configured scaling that is not on demand is active from
the start, while on-demand scaling stays off until IncreaseQuality switches
it on. -/
def mkParTSymLinearSolver (scaling_configured linear_scaling_on_demand
    call_solverinterface_on_all_procs : Bool) : ParTSymLinearSolver where
  atag_ := none
  dim_ := 0
  have_structure_ := false
  initialized_ := false
  scaling_configured_ := scaling_configured
  linear_scaling_on_demand_ := linear_scaling_on_demand
  use_scaling_ := scaling_configured && !linear_scaling_on_demand
  just_switched_on_scaling_ := false
  scaling_factors_ := fun _ => 1
  negevals_ := none
  quality_level_ := 0
  call_solverinterface_on_all_procs_ := call_solverinterface_on_all_procs
  rebuild_count := 0

/-- Construction as declared in the header with the third argument omitted:
the header declares call_solverinterface_on_all_procs with default value
false (IpParTSymLinearSolver.hpp, line 54). -/
def mkParTSymLinearSolverDefault (scaling_configured linear_scaling_on_demand : Bool) :
    ParTSymLinearSolver :=
  mkParTSymLinearSolver scaling_configured linear_scaling_on_demand false

/-- Modelled from the spec: on which MPI ranks the solver-interface methods
are invoked: on every rank when call_solverinterface_on_all_procs_ is set,
otherwise only on the root (rank 0) process (header comment, lines
49-51). -/
def solverInterfaceCalledOnRank (st : ParTSymLinearSolver) (my_rank_ : Nat) : Bool :=
  st.call_solverinterface_on_all_procs_ || my_rank_ == 0

/-- Modelled from the spec: the Distributed Gatherer.  Each process owns a
local shard of triplet entries and the root receives the shards in rank
order (the Gatherv driven by recvcounts_ and displs_), so the assembled
list is the concatenation of the shards. -/
def gatherTriplets (shards : List (List (Nat × Nat × Rat))) : List (Nat × Nat × Rat) :=
  shards.flatten

/-- Per-process element counts used by the gather (the recvcounts_ member). -/
def recvcounts (shards : List (List (Nat × Nat × Rat))) : List Nat :=
  shards.map List.length

/-- Value of the assembled matrix at position (r, c): duplicate (row, col)
entries are summed. -/
def assembledValue (es : List (Nat × Nat × Rat)) (r c : Nat) : Rat :=
  ((es.filter (fun e => e.1 == r && e.2.1 == c)).map (fun e => e.2.2)).sum

/-- Scaling of the assembled matrix: entry (i, j, v) becomes
v * s i * s j. -/
def scaleEntries (s : RVec) (es : List (Nat × Nat × Rat)) : List (Nat × Nat × Rat) :=
  es.map (fun e => (e.1, e.2.1, e.2.2 * s e.1 * s e.2.1))

/-- Scaling of a right-hand side (entry i is multiplied by s i).  Applying the
same map to a solution of the scaled system is the un-scaling step, because
the matrix scaling is symmetric. -/
def scaleVec (s : RVec) (b : RVec) : RVec :=
  fun i => b i * s i

/-- Contribution of one symmetric-triplet entry to row i of the matrix-vector
product: the entry acts at its (row, col) position and, off the diagonal,
also at the mirrored (col, row) position. -/
def entryContrib (x : RVec) (i : Nat) (e : Nat × Nat × Rat) : Rat :=
  (if e.1 = i then e.2.2 * x e.2.1 else 0) +
  (if e.2.1 = i ∧ ¬ e.1 = e.2.1 then e.2.2 * x e.1 else 0)

/-- Matrix-vector product of a symmetric matrix given by triplet entries. -/
def symMatVec (es : List (Nat × Nat × Rat)) (x : RVec) (i : Nat) : Rat :=
  (es.map (entryContrib x i)).sum

/-- Step labels for the observable sequence of one MultiSolve call. -/
inductive Step
  | updateStructure
  | initSolverStructure
  | gatherValues
  | scaleSystem
  | factorizeSolve (check : Bool)
  | unscaleSolutions
  | recordNegEVals
  | returnStatus
  deriving DecidableEq

/-- Modelled from the spec: detection of a structure change, by comparing the
incoming matrix version tag against the stored tag atag_ and the dimension
against dim_, never by comparing values; a first call (no structure seen
yet) also counts as a structure change. -/
def structChangeB (st : ParTSymLinearSolver) (A : SymMatrixT) : Bool :=
  !st.have_structure_ || !(st.dim_ == A.dim) || !(st.atag_ == some A.tag)

/-- Outcome of one MultiSolve call: the new driver state, the status, the
solution vectors (valid only on success), the observable step trace,
whether a structural rebuild happened, whether the matrix was treated as
new, the scale factors in effect, and the negative-eigenvalue count the
engine reported. -/
structure SolveOutcome where
  state : ParTSymLinearSolver
  status : ESymSolverStatus
  sols : Option (List RVec)
  trace : List Step
  didRebuild : Bool
  newMatrix : Bool
  factors : RVec
  negevFact : Nat

/-- Modelled from the spec: the MultiSolve driver sequence (the method body is
not in the given source): (i) update structure if needed; (ii) initialize
the engine structural state when structure changed or on the first call;
(iii) gather and assemble values; (iv) if scaling is active, scale the
matrix and right-hand sides; (v) factorize-and-solve, passing the
eigenvalue-sign request flag; (vi) if scaling is active, un-scale the
solutions; (vii) record the negative-eigenvalue count; (viii) return the
status.  On anything but success no solution vectors are returned.  A
matrix is treated as new when the structure changed or scaling was just
switched on, and scale factors are recomputed exactly then. -/
def MultiSolve (eng : SparseSymLinearSolverInterface) (scal : TSymScalingMethod)
    (st : ParTSymLinearSolver) (A : SymMatrixT) (rhsV : List RVec)
    (check_NegEVals : Bool) (numberOfNegEVals : Nat) : SolveOutcome :=
  let sc := structChangeB st A
  let st1 := if sc then
      { st with atag_ := some A.tag, dim_ := A.dim, have_structure_ := true,
                rebuild_count := st.rebuild_count + 1 }
    else st
  let needInit := sc || !st.initialized_
  let st2 := if needInit then { st1 with initialized_ := true } else st1
  let assembled := A.entries
  let newMat := sc || st.just_switched_on_scaling_
  let facts := if st.use_scaling_ then
      (if newMat then scal.ComputeSymTScalingFactors A.dim assembled
       else st.scaling_factors_)
    else st.scaling_factors_
  let st3 := { st2 with scaling_factors_ := facts, just_switched_on_scaling_ := false }
  let mat := if st.use_scaling_ then scaleEntries facts assembled else assembled
  let rhsS := if st.use_scaling_ then rhsV.map (scaleVec facts) else rhsV
  let res := eng.factorizeSolve A.dim mat rhsS check_NegEVals numberOfNegEVals
  let sols0 := if st.use_scaling_ then res.2.1.map (scaleVec facts) else res.2.1
  let st4 := { st3 with negevals_ :=
      if res.1 = ESymSolverStatus.SUCCESS then some res.2.2 else st3.negevals_ }
  { state := st4
    status := res.1
    sols := if res.1 = ESymSolverStatus.SUCCESS then some sols0 else none
    trace :=
      (if sc then [Step.updateStructure] else []) ++
      (if needInit then [Step.initSolverStructure] else []) ++
      [Step.gatherValues] ++
      (if st.use_scaling_ then [Step.scaleSystem] else []) ++
      [Step.factorizeSolve check_NegEVals] ++
      (if st.use_scaling_ then [Step.unscaleSolutions] else []) ++
      [Step.recordNegEVals, Step.returnStatus]
    didRebuild := sc
    newMatrix := newMat
    factors := facts
    negevFact := res.2.2 }

/-- Number of negative eigenvalues recorded by the most recent successful
factorization; none when no successful factorization has happened yet. -/
def NumberOfNegEVals (st : ParTSymLinearSolver) : Option Nat :=
  st.negevals_

/-- Modelled from the spec: IncreaseQuality (the method body is not in the
given source).  If scaling is configured but currently off and the
on-demand policy flag is set, switch scaling on and mark it as just
switched on; otherwise ask the engine for a more conservative setting,
which succeeds while the quality level is below the engine maximum and
otherwise returns false leaving the state unchanged. -/
def IncreaseQuality (eng : SparseSymLinearSolverInterface)
    (st : ParTSymLinearSolver) : ParTSymLinearSolver × Bool :=
  if st.scaling_configured_ && !st.use_scaling_ && st.linear_scaling_on_demand_ then
    ({ st with use_scaling_ := true, just_switched_on_scaling_ := true }, true)
  else if st.quality_level_ < eng.max_quality then
    ({ st with quality_level_ := st.quality_level_ + 1 }, true)
  else (st, false)

/-- Iterated application of IncreaseQuality, keeping the state component. -/
def iqIter (eng : SparseSymLinearSolverInterface) (st : ParTSymLinearSolver) :
    Nat → ParTSymLinearSolver
  | 0 => st
  | n + 1 => iqIter eng (IncreaseQuality eng st).1 n

/-- ProvidesInertia is a static capability query delegated to the engine. -/
def ProvidesInertia (eng : SparseSymLinearSolverInterface) : Bool :=
  eng.provides_inertia

/-- Canonical full step order of one MultiSolve call, in the spec order
(i)-(viii). -/
def fullOrder (check : Bool) : List Step :=
  [Step.updateStructure, Step.initSolverStructure, Step.gatherValues,
   Step.scaleSystem, Step.factorizeSolve check, Step.unscaleSolutions,
   Step.recordNegEVals, Step.returnStatus]

/-- Which steps of the canonical order are enabled: structure update only on a
structure change, engine structural setup when structure changed or on a
first call, scaling and un-scaling only when scaling is active, and the
remaining steps always. -/
def stepEnabled (sc needInit scaling : Bool) : Step → Bool
  | Step.updateStructure => sc
  | Step.initSolverStructure => needInit
  | Step.scaleSystem => scaling
  | Step.unscaleSolutions => scaling
  | _ => true

/-- The step sequence the spec prescribes for one call: the canonical order,
restricted to the enabled steps. -/
def solveSequenceSpec (sc needInit scaling check : Bool) : List Step :=
  (fullOrder check).filter (stepEnabled sc needInit scaling)

/-- Scaling application to a list of vectors, as performed on the right-hand
sides before the solve and on the solutions after it (a no-op when scaling
is inactive). -/
def applyScaling (useScaling : Bool) (facts : RVec) (xs : List RVec) : List RVec :=
  if useScaling then xs.map (scaleVec facts) else xs

/-- Matrix values handed to the solver engine: the assembled entries, scaled
when scaling is active. -/
def matGiven (useScaling : Bool) (facts : RVec) (A : SymMatrixT) :
    List (Nat × Nat × Rat) :=
  if useScaling then scaleEntries facts A.entries else A.entries

theorem MultiSolve_didRebuild (eng : SparseSymLinearSolverInterface)
    (scal : TSymScalingMethod) (st : ParTSymLinearSolver) (A : SymMatrixT)
    (rhsV : List RVec) (check : Bool) (k : Nat) :
    (MultiSolve eng scal st A rhsV check k).didRebuild = structChangeB st A := rfl

theorem MultiSolve_newMatrix (eng : SparseSymLinearSolverInterface)
    (scal : TSymScalingMethod) (st : ParTSymLinearSolver) (A : SymMatrixT)
    (rhsV : List RVec) (check : Bool) (k : Nat) :
    (MultiSolve eng scal st A rhsV check k).newMatrix =
      (structChangeB st A || st.just_switched_on_scaling_) := rfl

theorem MultiSolve_factors_eq (eng : SparseSymLinearSolverInterface)
    (scal : TSymScalingMethod) (st : ParTSymLinearSolver) (A : SymMatrixT)
    (rhsV : List RVec) (check : Bool) (k : Nat) :
    (MultiSolve eng scal st A rhsV check k).factors =
      (if st.use_scaling_ then
        (if structChangeB st A || st.just_switched_on_scaling_ then
          scal.ComputeSymTScalingFactors A.dim A.entries
         else st.scaling_factors_)
       else st.scaling_factors_) := rfl

theorem MultiSolve_status_io (eng : SparseSymLinearSolverInterface)
    (scal : TSymScalingMethod) (st : ParTSymLinearSolver) (A : SymMatrixT)
    (rhsV : List RVec) (check : Bool) (k : Nat) :
    (MultiSolve eng scal st A rhsV check k).status =
      (eng.factorizeSolve A.dim
        (matGiven st.use_scaling_ (MultiSolve eng scal st A rhsV check k).factors A)
        (applyScaling st.use_scaling_
          (MultiSolve eng scal st A rhsV check k).factors rhsV) check k).1 := rfl

theorem MultiSolve_negevFact_io (eng : SparseSymLinearSolverInterface)
    (scal : TSymScalingMethod) (st : ParTSymLinearSolver) (A : SymMatrixT)
    (rhsV : List RVec) (check : Bool) (k : Nat) :
    (MultiSolve eng scal st A rhsV check k).negevFact =
      (eng.factorizeSolve A.dim
        (matGiven st.use_scaling_ (MultiSolve eng scal st A rhsV check k).factors A)
        (applyScaling st.use_scaling_
          (MultiSolve eng scal st A rhsV check k).factors rhsV) check k).2.2 := rfl

theorem MultiSolve_sols_io (eng : SparseSymLinearSolverInterface)
    (scal : TSymScalingMethod) (st : ParTSymLinearSolver) (A : SymMatrixT)
    (rhsV : List RVec) (check : Bool) (k : Nat) :
    (MultiSolve eng scal st A rhsV check k).sols =
      (if (MultiSolve eng scal st A rhsV check k).status = ESymSolverStatus.SUCCESS
       then some (applyScaling st.use_scaling_
         (MultiSolve eng scal st A rhsV check k).factors
         (eng.factorizeSolve A.dim
           (matGiven st.use_scaling_ (MultiSolve eng scal st A rhsV check k).factors A)
           (applyScaling st.use_scaling_
             (MultiSolve eng scal st A rhsV check k).factors rhsV) check k).2.1)
       else none) := rfl

theorem MultiSolve_state_spec (eng : SparseSymLinearSolverInterface)
    (scal : TSymScalingMethod) (st : ParTSymLinearSolver) (A : SymMatrixT)
    (rhsV : List RVec) (check : Bool) (k : Nat) :
    (MultiSolve eng scal st A rhsV check k).state.have_structure_ = true ∧
    (MultiSolve eng scal st A rhsV check k).state.atag_ = some A.tag ∧
    (MultiSolve eng scal st A rhsV check k).state.dim_ = A.dim ∧
    (MultiSolve eng scal st A rhsV check k).state.just_switched_on_scaling_ = false ∧
    (MultiSolve eng scal st A rhsV check k).state.use_scaling_ = st.use_scaling_ ∧
    (MultiSolve eng scal st A rhsV check k).state.initialized_ = true ∧
    (MultiSolve eng scal st A rhsV check k).state.scaling_factors_ =
      (MultiSolve eng scal st A rhsV check k).factors ∧
    (MultiSolve eng scal st A rhsV check k).state.scaling_configured_ =
      st.scaling_configured_ ∧
    (MultiSolve eng scal st A rhsV check k).state.linear_scaling_on_demand_ =
      st.linear_scaling_on_demand_ ∧
    (MultiSolve eng scal st A rhsV check k).state.quality_level_ = st.quality_level_ ∧
    (MultiSolve eng scal st A rhsV check k).state.call_solverinterface_on_all_procs_ =
      st.call_solverinterface_on_all_procs_ ∧
    (MultiSolve eng scal st A rhsV check k).state.rebuild_count =
      (if structChangeB st A then st.rebuild_count + 1 else st.rebuild_count) ∧
    (MultiSolve eng scal st A rhsV check k).state.negevals_ =
      (if (MultiSolve eng scal st A rhsV check k).status = ESymSolverStatus.SUCCESS
       then some (MultiSolve eng scal st A rhsV check k).negevFact
       else st.negevals_) := by
  cases hsc : structChangeB st A with
  | true =>
    cases hinit : st.initialized_ <;>
      simp [MultiSolve, hsc, hinit]
  | false =>
    have h1 := hsc
    simp only [structChangeB, Bool.or_eq_false_iff, Bool.not_eq_false,
      Bool.not_eq_true, beq_eq_false_iff_ne, ne_eq, not_not, beq_iff_eq] at h1
    obtain ⟨⟨ha, hb⟩, hc⟩ := h1
    cases hinit : st.initialized_ <;>
      simp_all [MultiSolve, hsc, hinit]

/-- Sample scaling method used to evaluate the theorems on concrete inputs. -/
def demoScal : TSymScalingMethod :=
  ⟨fun _ _ => fun _ => 1⟩

/-- Sample engine that always reports a singular matrix. -/
def demoEngineFail : SparseSymLinearSolverInterface :=
  ⟨0, false, fun _ _ _ _ _ => (ESymSolverStatus.SINGULAR, [], 0)⟩

/-- Sample engine that always succeeds, echoing the right-hand sides as
solutions and reporting one negative eigenvalue. -/
def demoEngineOK : SparseSymLinearSolverInterface :=
  ⟨2, true, fun _ _ rhs _ _ => (ESymSolverStatus.SUCCESS, rhs, 1)⟩

/-- Freshly constructed driver with no scaling. -/
def demoState0 : ParTSymLinearSolver :=
  mkParTSymLinearSolver false false false

/-- Sample 2-dimensional matrix with tag 5 and one off-diagonal entry. -/
def demoA : SymMatrixT :=
  ⟨5, 2, [(0, 1, 3)]⟩

/-- Same pattern as demoA, same tag, different value. -/
def demoAv : SymMatrixT :=
  ⟨5, 2, [(0, 1, 7)]⟩

/-- Different pattern than demoA, same dimension, different tag. -/
def demoB : SymMatrixT :=
  ⟨6, 2, [(0, 0, 4)]⟩

/-- Same nonzero count as demoA but dimension 3 and a different tag. -/
def demoB3 : SymMatrixT :=
  ⟨7, 3, [(0, 0, 4)]⟩

/-- C1: every MultiSolve call performs exactly the steps of the spec sequence
(i)-(viii) in the fixed canonical order: structure update iff a structure
change is detected, engine structural setup iff structure changed or the
driver was uninitialized, value gathering always, scaling and un-scaling
iff scaling is active, factorize-and-solve with the eigenvalue-sign flag
exactly as requested, then recording and status return; and on anything but
success no solution vectors are returned. -/
theorem claim_C1_solve_sequence (eng : SparseSymLinearSolverInterface)
    (scal : TSymScalingMethod) (st : ParTSymLinearSolver) (A : SymMatrixT)
    (rhsV : List RVec) (check_NegEVals : Bool) (numberOfNegEVals : Nat) :
    (MultiSolve eng scal st A rhsV check_NegEVals numberOfNegEVals).trace =
      solveSequenceSpec (structChangeB st A)
        (structChangeB st A || !st.initialized_) st.use_scaling_ check_NegEVals ∧
    List.Sublist (MultiSolve eng scal st A rhsV check_NegEVals numberOfNegEVals).trace
      (fullOrder check_NegEVals) ∧
    (∀ b, Step.factorizeSolve b ∈
        (MultiSolve eng scal st A rhsV check_NegEVals numberOfNegEVals).trace ↔
      b = check_NegEVals) ∧
    ((MultiSolve eng scal st A rhsV check_NegEVals numberOfNegEVals).status ≠
        ESymSolverStatus.SUCCESS →
      (MultiSolve eng scal st A rhsV check_NegEVals numberOfNegEVals).sols = none) := by
  have htr : (MultiSolve eng scal st A rhsV check_NegEVals numberOfNegEVals).trace =
      solveSequenceSpec (structChangeB st A)
        (structChangeB st A || !st.initialized_) st.use_scaling_ check_NegEVals := by
    cases hsc : structChangeB st A <;> cases hinit : st.initialized_ <;>
      cases husc : st.use_scaling_ <;>
      simp [MultiSolve, solveSequenceSpec, fullOrder, stepEnabled, List.filter,
        hsc, hinit, husc]
  refine ⟨htr, ?_, ?_, ?_⟩
  · rw [htr]
    exact List.filter_sublist _
  · intro b
    rw [htr]
    simp [solveSequenceSpec, List.mem_filter, fullOrder, stepEnabled]
  · intro h
    rw [MultiSolve_sols_io, if_neg h]

/-- Closed instance of C1 discharging its hypothesis: with an engine that
reports a singular matrix, no solutions are returned. -/
theorem claim_C1_solve_sequence_witness :
    (MultiSolve demoEngineFail demoScal demoState0 demoA [] false 0).status ≠
      ESymSolverStatus.SUCCESS ∧
    (MultiSolve demoEngineFail demoScal demoState0 demoA [] false 0).sols = none :=
  ⟨by decide,
   (claim_C1_solve_sequence demoEngineFail demoScal demoState0 demoA [] false
      0).2.2.2 (by decide)⟩

/-- C10: built with the third constructor argument omitted (the header gives
it default value false), the driver does not replicate solver-interface
calls: they happen on rank 0 only. -/
theorem claim_C10_default_root_only (scaling_configured linear_scaling_on_demand : Bool) :
    (mkParTSymLinearSolverDefault scaling_configured
        linear_scaling_on_demand).call_solverinterface_on_all_procs_ = false ∧
    (∀ my_rank_ : Nat,
      solverInterfaceCalledOnRank
        (mkParTSymLinearSolverDefault scaling_configured linear_scaling_on_demand)
        my_rank_ = (my_rank_ == 0)) := by
  refine ⟨rfl, ?_⟩
  intro r
  simp [solverInterfaceCalledOnRank, mkParTSymLinearSolverDefault, mkParTSymLinearSolver]

/-- C9: a second Solve whose matrix has a different dimension than the one
recorded by the first Solve detects a structure change and rebuilds, even
when the nonzero counts of the two matrices coincide. -/
theorem claim_C9_dim_change_rebuild (eng : SparseSymLinearSolverInterface)
    (scal : TSymScalingMethod) (st : ParTSymLinearSolver) (A B : SymMatrixT)
    (rhsV rhsV2 : List RVec) (check check2 : Bool) (k k2 : Nat)
    (hdim : A.dim ≠ B.dim)
    (_hnz : A.entries.length = B.entries.length) :
    (MultiSolve eng scal (MultiSolve eng scal st A rhsV check k).state B rhsV2
      check2 k2).didRebuild = true := by
  obtain ⟨h1, h2, h3, _⟩ := MultiSolve_state_spec eng scal st A rhsV check k
  rw [MultiSolve_didRebuild]
  simp [structChangeB, h3, hdim]

/-- Closed instance of C9: dimension 2 to dimension 3 with equal nonzero
counts triggers a rebuild. -/
theorem claim_C9_dim_change_rebuild_witness :
    demoA.dim ≠ demoB3.dim ∧ demoA.entries.length = demoB3.entries.length ∧
    (MultiSolve demoEngineFail demoScal
      (MultiSolve demoEngineFail demoScal demoState0 demoA [] false 0).state demoB3
      [] false 0).didRebuild = true :=
  ⟨by decide, by decide,
   claim_C9_dim_change_rebuild demoEngineFail demoScal demoState0 demoA demoB3 [] []
     false false 0 0 (by decide) (by decide)⟩

/-- Driver state with structure already seen for demoA, scaling configured on
demand and currently off. -/
def demoStOnDemand : ParTSymLinearSolver :=
  { mkParTSymLinearSolver true true false with
    atag_ := some demoA.tag, dim_ := demoA.dim, have_structure_ := true }

/-- C7: with scaling configured but off and the on-demand flag set,
IncreaseQuality returns true and switches scaling on, and the next Solve
treats the matrix as new (newMatrix) although no structural rebuild
happens, the version tag and dimension being unchanged. -/
theorem claim_C7_scaling_on_demand (eng : SparseSymLinearSolverInterface)
    (scal : TSymScalingMethod) (st : ParTSymLinearSolver) (A : SymMatrixT)
    (rhsV : List RVec) (check : Bool) (k : Nat)
    (hconf : st.scaling_configured_ = true)
    (hoff : st.use_scaling_ = false)
    (hdem : st.linear_scaling_on_demand_ = true)
    (hstruct : st.have_structure_ = true)
    (htag : st.atag_ = some A.tag)
    (hdim : st.dim_ = A.dim) :
    (IncreaseQuality eng st).2 = true ∧
    (IncreaseQuality eng st).1.use_scaling_ = true ∧
    (IncreaseQuality eng st).1.just_switched_on_scaling_ = true ∧
    (MultiSolve eng scal (IncreaseQuality eng st).1 A rhsV check k).didRebuild =
      false ∧
    (MultiSolve eng scal (IncreaseQuality eng st).1 A rhsV check k).newMatrix =
      true := by
  simp [IncreaseQuality, hconf, hoff, hdem, MultiSolve_didRebuild,
    MultiSolve_newMatrix, structChangeB, hstruct, htag, hdim]

/-- Closed instance of C7 at a driver state with structure in place, scaling
configured on demand and currently off. -/
theorem claim_C7_scaling_on_demand_witness :
    demoStOnDemand.scaling_configured_ = true ∧
    demoStOnDemand.use_scaling_ = false ∧
    demoStOnDemand.linear_scaling_on_demand_ = true ∧
    (IncreaseQuality demoEngineOK demoStOnDemand).2 = true ∧
    (MultiSolve demoEngineOK demoScal (IncreaseQuality demoEngineOK demoStOnDemand).1
      demoA [] false 0).didRebuild = false ∧
    (MultiSolve demoEngineOK demoScal (IncreaseQuality demoEngineOK demoStOnDemand).1
      demoA [] false 0).newMatrix = true := by
  refine ⟨by decide, by decide, by decide, ?_, ?_, ?_⟩
  · exact (claim_C7_scaling_on_demand demoEngineOK demoScal demoStOnDemand demoA []
      false 0 (by decide) (by decide) (by decide) (by decide) (by decide)
      (by decide)).1
  · exact (claim_C7_scaling_on_demand demoEngineOK demoScal demoStOnDemand demoA []
      false 0 (by decide) (by decide) (by decide) (by decide) (by decide)
      (by decide)).2.2.2.1
  · exact (claim_C7_scaling_on_demand demoEngineOK demoScal demoStOnDemand demoA []
      false 0 (by decide) (by decide) (by decide) (by decide) (by decide)
      (by decide)).2.2.2.2

/-- C3: structure change is detected purely from the version tag and the
dimension, never from the values; under the version-tag discipline (tags
agree exactly when nonzero patterns agree), a second Solve with a
different pattern but the same dimension rebuilds exactly once, and a
second Solve with an identical pattern (whatever its values) rebuilds zero
times. -/
theorem claim_C3_structure_by_tag (eng : SparseSymLinearSolverInterface)
    (scal : TSymScalingMethod) (st : ParTSymLinearSolver) (A B : SymMatrixT)
    (rhsV rhsV2 : List RVec) (check check2 : Bool) (k k2 : Nat)
    (htagfaith : (A.tag = B.tag) ↔ (patternOf A = patternOf B)) :
    (∀ (st1 : ParTSymLinearSolver) (C D : SymMatrixT), C.tag = D.tag →
      C.dim = D.dim → structChangeB st1 C = structChangeB st1 D) ∧
    (patternOf A ≠ patternOf B → A.dim = B.dim →
      (MultiSolve eng scal (MultiSolve eng scal st A rhsV check k).state B rhsV2
        check2 k2).didRebuild = true ∧
      (MultiSolve eng scal (MultiSolve eng scal st A rhsV check k).state B rhsV2
        check2 k2).state.rebuild_count =
        (MultiSolve eng scal st A rhsV check k).state.rebuild_count + 1) ∧
    (patternOf A = patternOf B → A.dim = B.dim →
      (MultiSolve eng scal (MultiSolve eng scal st A rhsV check k).state B rhsV2
        check2 k2).didRebuild = false ∧
      (MultiSolve eng scal (MultiSolve eng scal st A rhsV check k).state B rhsV2
        check2 k2).state.rebuild_count =
        (MultiSolve eng scal st A rhsV check k).state.rebuild_count) := by
  obtain ⟨h1, h2, h3, _⟩ := MultiSolve_state_spec eng scal st A rhsV check k
  obtain ⟨_, _, _, _, _, _, _, _, _, _, _, hcount2, _⟩ :=
    MultiSolve_state_spec eng scal (MultiSolve eng scal st A rhsV check k).state B
      rhsV2 check2 k2
  refine ⟨?_, ?_, ?_⟩
  · intro st1 C D htag hdim
    simp [structChangeB, htag, hdim]
  · intro hpat hdim
    have htagne : A.tag ≠ B.tag := fun h => hpat (htagfaith.mp h)
    have hscB : structChangeB (MultiSolve eng scal st A rhsV check k).state B =
        true := by
      simp [structChangeB, h2, htagne]
    rw [MultiSolve_didRebuild, hscB, hcount2, hscB]
    simp
  · intro hpat hdim
    have htageq : A.tag = B.tag := htagfaith.mpr hpat
    have hscB : structChangeB (MultiSolve eng scal st A rhsV check k).state B =
        false := by
      simp [structChangeB, h1, h2, h3, htageq, hdim]
    rw [MultiSolve_didRebuild, hscB, hcount2, hscB]
    simp

/-- Closed instance of C3: value-only change (demoA to demoAv, same tag and
pattern) gives zero rebuilds, and a pattern change (demoA to demoB,
different tag, same dimension) gives exactly one. -/
theorem claim_C3_structure_by_tag_witness :
    ((demoA.tag = demoAv.tag) ↔ (patternOf demoA = patternOf demoAv)) ∧
    patternOf demoA = patternOf demoAv ∧
    (MultiSolve demoEngineOK demoScal
      (MultiSolve demoEngineOK demoScal demoState0 demoA [] false 0).state demoAv
      [] false 0).didRebuild = false ∧
    ((demoA.tag = demoB.tag) ↔ (patternOf demoA = patternOf demoB)) ∧
    (MultiSolve demoEngineOK demoScal
      (MultiSolve demoEngineOK demoScal demoState0 demoA [] false 0).state demoB
      [] false 0).didRebuild = true :=
  ⟨by decide, by decide,
   ((claim_C3_structure_by_tag demoEngineOK demoScal demoState0 demoA demoAv [] []
      false false 0 0 (by decide)).2.2 (by decide) (by decide)).1,
   by decide,
   ((claim_C3_structure_by_tag demoEngineOK demoScal demoState0 demoA demoB [] []
      false false 0 0 (by decide)).2.1 (by decide) (by decide)).1⟩

/-- C5: NumberOfNegEVals yields the count recorded by the most recent
successful factorization: none on a freshly constructed driver (no
successful factorization yet), the engine-reported count right after a
successful solve, and the previously recorded value after a failed
solve. -/
theorem claim_C5_negevals (eng : SparseSymLinearSolverInterface)
    (scal : TSymScalingMethod) (st : ParTSymLinearSolver) (A : SymMatrixT)
    (rhsV : List RVec) (check : Bool) (k : Nat) :
    (∀ sc od ca : Bool, NumberOfNegEVals (mkParTSymLinearSolver sc od ca) = none) ∧
    ((MultiSolve eng scal st A rhsV check k).status = ESymSolverStatus.SUCCESS →
      NumberOfNegEVals (MultiSolve eng scal st A rhsV check k).state =
        some (MultiSolve eng scal st A rhsV check k).negevFact) ∧
    ((MultiSolve eng scal st A rhsV check k).status ≠ ESymSolverStatus.SUCCESS →
      NumberOfNegEVals (MultiSolve eng scal st A rhsV check k).state =
        NumberOfNegEVals st) := by
  obtain ⟨_, _, _, _, _, _, _, _, _, _, _, _, hneg⟩ :=
    MultiSolve_state_spec eng scal st A rhsV check k
  refine ⟨fun _ _ _ => rfl, ?_, ?_⟩
  · intro h
    rw [NumberOfNegEVals, hneg, if_pos h]
  · intro h
    rw [NumberOfNegEVals, hneg, if_neg h]
    rfl

/-- Closed instance of C5: fresh driver has no count; a successful solve
records the engine count; a failed solve keeps the old record. -/
theorem claim_C5_negevals_witness :
    NumberOfNegEVals demoState0 = none ∧
    (MultiSolve demoEngineOK demoScal demoState0 demoA [] false 0).status =
      ESymSolverStatus.SUCCESS ∧
    NumberOfNegEVals (MultiSolve demoEngineOK demoScal demoState0 demoA [] false
      0).state =
      some (MultiSolve demoEngineOK demoScal demoState0 demoA [] false 0).negevFact ∧
    (MultiSolve demoEngineFail demoScal demoState0 demoA [] false 0).status ≠
      ESymSolverStatus.SUCCESS ∧
    NumberOfNegEVals (MultiSolve demoEngineFail demoScal demoState0 demoA [] false
      0).state = NumberOfNegEVals demoState0 :=
  ⟨(claim_C5_negevals demoEngineOK demoScal demoState0 demoA [] false 0).1 false
     false false,
   by decide,
   (claim_C5_negevals demoEngineOK demoScal demoState0 demoA [] false 0).2.1
     (by decide),
   by decide,
   (claim_C5_negevals demoEngineFail demoScal demoState0 demoA [] false 0).2.2
     (by decide)⟩

/-- C8: a second Solve with the same matrix (same tag, dimension and values)
and the same right-hand sides rebuilds nothing and returns exactly the
solutions of the first call. -/
theorem claim_C8_idempotent_solve (eng : SparseSymLinearSolverInterface)
    (scal : TSymScalingMethod) (st : ParTSymLinearSolver) (A : SymMatrixT)
    (rhsV : List RVec) (check : Bool) (k : Nat) :
    (MultiSolve eng scal (MultiSolve eng scal st A rhsV check k).state A rhsV check
      k).didRebuild = false ∧
    (MultiSolve eng scal (MultiSolve eng scal st A rhsV check k).state A rhsV check
      k).sols = (MultiSolve eng scal st A rhsV check k).sols ∧
    (MultiSolve eng scal (MultiSolve eng scal st A rhsV check k).state A rhsV check
      k).state.rebuild_count =
      (MultiSolve eng scal st A rhsV check k).state.rebuild_count := by
  obtain ⟨h1, h2, h3, h4, h5, h6, h7, _⟩ :=
    MultiSolve_state_spec eng scal st A rhsV check k
  obtain ⟨_, _, _, _, _, _, _, _, _, _, _, hcount2, _⟩ :=
    MultiSolve_state_spec eng scal (MultiSolve eng scal st A rhsV check k).state A
      rhsV check k
  have hsc : structChangeB (MultiSolve eng scal st A rhsV check k).state A =
      false := by
    simp [structChangeB, h1, h2, h3]
  have hf : (MultiSolve eng scal (MultiSolve eng scal st A rhsV check k).state A
      rhsV check k).factors = (MultiSolve eng scal st A rhsV check k).factors := by
    rw [MultiSolve_factors_eq, hsc, h4, h5, h7]
    simp
  refine ⟨?_, ?_, ?_⟩
  · rw [MultiSolve_didRebuild, hsc]
  · rw [MultiSolve_sols_io eng scal (MultiSolve eng scal st A rhsV check k).state A
        rhsV check k,
      MultiSolve_status_io eng scal (MultiSolve eng scal st A rhsV check k).state A
        rhsV check k,
      hf, h5,
      MultiSolve_sols_io eng scal st A rhsV check k,
      MultiSolve_status_io eng scal st A rhsV check k]
  · rw [hcount2, hsc]
    simp

/-- Termination measure for repeated quality increases: one potential step for
switching scaling on plus the remaining quality headroom of the engine. -/
def iqMeasure (eng : SparseSymLinearSolverInterface) (s : ParTSymLinearSolver) :
    Nat :=
  (if s.scaling_configured_ && !s.use_scaling_ && s.linear_scaling_on_demand_
   then 1 else 0) + (eng.max_quality - s.quality_level_)

theorem iq_false_state (eng : SparseSymLinearSolverInterface)
    (s : ParTSymLinearSolver) (h : (IncreaseQuality eng s).2 = false) :
    (IncreaseQuality eng s).1 = s := by
  unfold IncreaseQuality at h ⊢
  split_ifs at h ⊢
  rfl

theorem iq_false_measure (eng : SparseSymLinearSolverInterface)
    (s : ParTSymLinearSolver) (h : (IncreaseQuality eng s).2 = false) :
    iqMeasure eng s = 0 := by
  unfold IncreaseQuality at h
  split_ifs at h with h1 h2
  simp only [iqMeasure, if_neg h1]
  omega

theorem iq_true_measure (eng : SparseSymLinearSolverInterface)
    (s : ParTSymLinearSolver) (h : (IncreaseQuality eng s).2 = true) :
    iqMeasure eng (IncreaseQuality eng s).1 < iqMeasure eng s := by
  unfold IncreaseQuality
  unfold IncreaseQuality at h
  split_ifs at h ⊢ with h1 h2
  · simp only [iqMeasure, if_pos h1]
    simp
  · simp only [iqMeasure]
    have hup : ({ s with quality_level_ := s.quality_level_ + 1 } :
        ParTSymLinearSolver).scaling_configured_ = s.scaling_configured_ := rfl
    cases hC : (s.scaling_configured_ && !s.use_scaling_ &&
        s.linear_scaling_on_demand_) <;>
      simp [hC] <;> omega

theorem iq_eventually (eng : SparseSymLinearSolverInterface) :
    ∀ (n : Nat) (s : ParTSymLinearSolver), iqMeasure eng s ≤ n →
      (IncreaseQuality eng (iqIter eng s n)).2 = false := by
  intro n
  induction n with
  | zero =>
    intro s h
    cases hb : (IncreaseQuality eng s).2 with
    | false => exact hb
    | true =>
      have := iq_true_measure eng s hb
      omega
  | succ n ih =>
    intro s h
    have hIter : iqIter eng s (n + 1) = iqIter eng (IncreaseQuality eng s).1 n := rfl
    rw [hIter]
    cases hb : (IncreaseQuality eng s).2 with
    | true =>
      refine ih _ ?_
      have := iq_true_measure eng s hb
      omega
    | false =>
      rw [iq_false_state eng s hb]
      refine ih s ?_
      have := iq_false_measure eng s hb
      omega

/-- C6: from any driver state a finite number of IncreaseQuality calls
reaches one that returns false, and from any state where IncreaseQuality
returns false every further call leaves the state unchanged and keeps
returning false. -/
theorem claim_C6_quality_monotone (eng : SparseSymLinearSolverInterface)
    (st : ParTSymLinearSolver) :
    (∃ kk, (IncreaseQuality eng (iqIter eng st kk)).2 = false) ∧
    (∀ s : ParTSymLinearSolver, (IncreaseQuality eng s).2 = false →
      ∀ m, iqIter eng s m = s ∧ (IncreaseQuality eng (iqIter eng s m)).2 = false) := by
  constructor
  · exact ⟨iqMeasure eng st, iq_eventually eng _ st le_rfl⟩
  · intro s hfalse m
    induction m with
    | zero => exact ⟨rfl, hfalse⟩
    | succ n ih =>
      have hIter : iqIter eng s (n + 1) = iqIter eng (IncreaseQuality eng s).1 n :=
        rfl
      rw [hIter, iq_false_state eng s hfalse]
      exact ih

/-- Closed instance of C6: with an engine already at its most conservative
setting and no scaling available, IncreaseQuality returns false and two
further iterations change nothing and still return false. -/
theorem claim_C6_quality_monotone_witness :
    (IncreaseQuality demoEngineFail demoState0).2 = false ∧
    iqIter demoEngineFail demoState0 2 = demoState0 ∧
    (IncreaseQuality demoEngineFail (iqIter demoEngineFail demoState0 2)).2 =
      false :=
  ⟨by decide,
   ((claim_C6_quality_monotone demoEngineFail demoState0).2 demoState0 (by decide)
      2).1,
   ((claim_C6_quality_monotone demoEngineFail demoState0).2 demoState0 (by decide)
      2).2⟩

theorem entryContrib_scaled (s y : RVec) (i : Nat) (e : Nat × Nat × Rat) :
    entryContrib y i (e.1, e.2.1, e.2.2 * s e.1 * s e.2.1) =
      s i * entryContrib (scaleVec s y) i e := by
  rcases e with ⟨r, c, v⟩
  simp only [entryContrib, scaleVec]
  split_ifs with h1 h2 h2
  · exact absurd (h1.trans h2.1.symm) h2.2
  · subst h1
    ring
  · obtain ⟨hc, _⟩ := h2
    subst hc
    ring
  · ring

theorem symMatVec_scaled (s y : RVec) (es : List (Nat × Nat × Rat)) (i : Nat) :
    symMatVec (scaleEntries s es) y i = s i * symMatVec es (scaleVec s y) i := by
  unfold symMatVec scaleEntries
  induction es with
  | nil => simp
  | cons e t ih =>
    simp only [List.map_cons, List.sum_cons]
    rw [ih, entryContrib_scaled, mul_add]

/-- C2: the scaling the driver applies (matrix entry (i, j, v) becomes
v * s i * s j, right-hand side entry b i becomes b i * s i) composed with
the un-scaling of the solution (x i = y i * s i) is exact: whenever y
solves the scaled system, the un-scaled vector solves the original system,
so the round trip agrees with solving the unscaled system directly. -/
theorem claim_C2_scaling_roundtrip (es : List (Nat × Nat × Rat)) (s y b : RVec)
    (hs : ∀ i, s i ≠ 0)
    (hy : ∀ i, symMatVec (scaleEntries s es) y i = scaleVec s b i) :
    ∀ i, symMatVec es (scaleVec s y) i = b i := by
  intro i
  have h2 := hy i
  rw [symMatVec_scaled] at h2
  have h3 : s i * symMatVec es (scaleVec s y) i = s i * b i := by
    rw [h2]
    simp only [scaleVec]
    ring
  exact mul_left_cancel₀ (hs i) h3

/-- Scale-factor vector used in the closed instance of C2. -/
def demoS : RVec := fun _ => 2

/-- Solution vector of the scaled system in the closed instance of C2. -/
def demoY : RVec := fun _ => 1

/-- Triplet entries used in the closed instance of C2. -/
def demoEntries : List (Nat × Nat × Rat) := [(0, 1, 3)]

/-- Right-hand side defined so that demoY solves the scaled system. -/
def demoBvec : RVec :=
  fun i => symMatVec (scaleEntries demoS demoEntries) demoY i * (2 : Rat)⁻¹

/-- Closed instance of C2 at a concrete matrix, scale vector, and solution of
the scaled system. -/
theorem claim_C2_scaling_roundtrip_witness :
    demoS 1 ≠ 0 ∧ symMatVec demoEntries (scaleVec demoS demoY) 1 = demoBvec 1 :=
  ⟨by norm_num [demoS],
   claim_C2_scaling_roundtrip demoEntries demoS demoY demoBvec
     (fun i => by norm_num [demoS])
     (fun i => by
       simp only [demoBvec, scaleVec, demoS]
       ring) 1⟩

/-- C4: gathering any partition of the triplet entries over N processes and
assembling (summing duplicate (row, col) positions) yields the same matrix
as assembling the single-process partition holding the same entries. -/
theorem claim_C4_gather_correct (shards : List (List (Nat × Nat × Rat)))
    (single : List (Nat × Nat × Rat))
    (hpart : List.Perm (gatherTriplets shards) (gatherTriplets [single])) :
    ∀ r c, assembledValue (gatherTriplets shards) r c =
      assembledValue (gatherTriplets [single]) r c := by
  intro r c
  unfold assembledValue
  exact List.Perm.sum_eq (List.Perm.map _ (List.Perm.filter _ hpart))

/-- Two-process partition of three entries used in the closed instance of
C4. -/
def demoShards : List (List (Nat × Nat × Rat)) :=
  [[(0, 0, 1)], [(0, 0, 2), (1, 0, 3)]]

/-- Single-process partition of the same entries in a different order. -/
def demoSingle : List (Nat × Nat × Rat) :=
  [(0, 0, 2), (0, 0, 1), (1, 0, 3)]

/-- Closed instance of C4: the two-process gather and the single-process
gather assemble the same value at position (0, 0), where the duplicate
entries sum to 3. -/
theorem claim_C4_gather_correct_witness :
    List.Perm (gatherTriplets demoShards) (gatherTriplets [demoSingle]) ∧
    assembledValue (gatherTriplets demoShards) 0 0 =
      assembledValue (gatherTriplets [demoSingle]) 0 0 ∧
    assembledValue (gatherTriplets [demoSingle]) 0 0 = 3 :=
  ⟨by decide,
   claim_C4_gather_correct demoShards demoSingle (by decide) 0 0,
   by
     simp [assembledValue, gatherTriplets, demoSingle]
     norm_num⟩

end Ipopt
